import Mathlib

/-!
Verification of the pegasus-kickstart monitoring relay
(src/src/tools/pegasus-kickstart/monitoring.c).

The C file implements a small telemetry relay: a background thread listens on
an ephemeral TCP port, reads one line per connection, enriches each line that
starts with "ts=" with workflow identity fields, aggregates enriched lines
into batches of MSG_AGGR_FACTOR records, and forwards each batch to a
message broker via an HTTP POST.  The definitions below are a shallow
embedding of that file, translated function by function; machine strings are
Lean strings (the fixed-size BUFSIZ buffers and their truncation behaviour
are not modelled), fallible C calls are modelled by explicit outcome
parameters, and the glibc behaviour of a printf-style "%s" conversion
applied to a NULL pointer (it prints "(null)") is made explicit.
-/

/-- The message aggregation factor, monitoring.c line 20, where the macro
MSG_AGGR_FACTOR is defined to be 1. -/
def MSG_AGGR_FACTOR : Nat := 1

/-- The context handed to the monitoring thread, monitoring.c lines 22-32.
The two optional fields are char pointers that may be NULL, modelled as
Option String.  The socket field is kept out of the pure context; it is
modelled where it is used. -/
structure MonitoringThreadContext where
  url : String
  credentials : String
  wf_label : String
  wf_uuid : String
  dag_job_id : String
  condor_job_id : String
  xformation : Option String
  task_id : Option String
deriving DecidableEq

/-- The six environment keys that initialize_monitoring_context requires,
in the order the C code reads them (monitoring.c lines 44-84). -/
def required_env_keys : List String :=
  ["KICKSTART_MON_ENDPOINT_URL", "KICKSTART_MON_ENDPOINT_CREDENTIALS",
   "PEGASUS_WF_UUID", "PEGASUS_WF_LABEL", "PEGASUS_DAG_JOB_ID", "CONDOR_JOBID"]

/-- The error text printed when a required key is absent, for example
"ERROR: PEGASUS_WF_UUID not specified" (monitoring.c lines 46, 53, 60, 67,
74, 81). -/
def missing_key_error (k : String) : String :=
  "ERROR: " ++ k ++ " not specified\n"

/-- Embedding of initialize_monitoring_context (monitoring.c lines 41-101).
The environment is a partial map from variable names to values; getenv
returning NULL is the none case.  Each required key is checked in program
order and the first absent one aborts with the printed error; the two
optional keys PEGASUS_XFORMATION and PEGASUS_TASK_ID fall through to NULL
(none) when absent. -/
def initialize_monitoring_context (env : String → Option String) :
    Except String MonitoringThreadContext :=
  match env "KICKSTART_MON_ENDPOINT_URL" with
  | none => .error (missing_key_error "KICKSTART_MON_ENDPOINT_URL")
  | some url =>
  match env "KICKSTART_MON_ENDPOINT_CREDENTIALS" with
  | none => .error (missing_key_error "KICKSTART_MON_ENDPOINT_CREDENTIALS")
  | some credentials =>
  match env "PEGASUS_WF_UUID" with
  | none => .error (missing_key_error "PEGASUS_WF_UUID")
  | some wf_uuid =>
  match env "PEGASUS_WF_LABEL" with
  | none => .error (missing_key_error "PEGASUS_WF_LABEL")
  | some wf_label =>
  match env "PEGASUS_DAG_JOB_ID" with
  | none => .error (missing_key_error "PEGASUS_DAG_JOB_ID")
  | some dag_job_id =>
  match env "CONDOR_JOBID" with
  | none => .error (missing_key_error "CONDOR_JOBID")
  | some condor_job_id =>
    .ok ⟨url, credentials, wf_label, wf_uuid, dag_job_id, condor_job_id,
         env "PEGASUS_XFORMATION", env "PEGASUS_TASK_ID"⟩

/-- Rendering of a possibly-NULL C string by the printf family under a "%s"
conversion: glibc prints "(null)" for a NULL pointer (strictly undefined
behaviour in ISO C; the glibc behaviour is what the shipped binary does). -/
def cstr_s : Option String → String
  | none => "(null)"
  | some s => s

/-- Embedding of the enrichment snprintf at monitoring.c lines 299-301: the
original line followed by the six identity fields as key=value tokens, in
the argument order of the format string (wf_uuid, wf_label, dag_job_id,
condor_job_id, xformation, task_id). -/
def enriched_line (ctx : MonitoringThreadContext) (line : String) : String :=
  line ++ " wf_uuid=" ++ ctx.wf_uuid ++ " wf_label=" ++ ctx.wf_label ++
    " dag_job_id=" ++ ctx.dag_job_id ++ " condor_job_id=" ++ ctx.condor_job_id ++
    " xformation=" ++ cstr_s ctx.xformation ++ " task_id=" ++ cstr_s ctx.task_id

/-- Embedding of the validity check at monitoring.c line 293: the condition
strstr(line, "ts=") == line holds exactly when the first three characters
of the line are the characters of "ts=". -/
def ts_check (line : String) : Bool :=
  line.data.take 3 == "ts=".data

/-- The aggregation state of the relay loop: the msg_counter and the
aggr_msg_buffer variables of monitoring_thread_func (monitoring.c
lines 237-238). -/
structure AggrState where
  msg_counter : Nat
  aggr_msg_buffer : String
deriving DecidableEq

/-- Embedding of one iteration of the per-connection body of
monitoring_thread_func on a received line (monitoring.c lines 292-318):
discard the line unless it starts with "ts="; otherwise append the enriched
line followed by the delimiter token ":delim1:" to the aggregation buffer
and bump the counter; when the counter reaches the aggregation factor,
forward the buffer once (the returned list of sends) and reset counter and
buffer to empty. -/
def process_line (N : Nat) (ctx : MonitoringThreadContext) (st : AggrState)
    (line : String) : AggrState × List String :=
  if ts_check line then
    let buf := st.aggr_msg_buffer ++ enriched_line ctx line ++ ":delim1:"
    if st.msg_counter + 1 = N then (⟨0, ""⟩, [buf])
    else (⟨st.msg_counter + 1, buf⟩, [])
  else (st, [])

/-- Running the relay loop body over a sequence of received lines,
accumulating the batches forwarded to the broker in order. -/
def run_from (N : Nat) (ctx : MonitoringThreadContext) :
    AggrState → List String → List String → AggrState × List String
  | st, sends, [] => (st, sends)
  | st, sends, l :: ls =>
    run_from N ctx (process_line N ctx st l).1
      (sends ++ (process_line N ctx st l).2) ls

/-- The relay loop run from the initial state: msg_counter zero and an
empty buffer, monitoring.c line 237. -/
def run_lines (N : Nat) (ctx : MonitoringThreadContext) (ls : List String) :
    AggrState × List String :=
  run_from N ctx ⟨0, ""⟩ [] ls

/-- The text a sequence of enriched records contributes to the aggregation
buffer: each record is followed by the delimiter token ":delim1:"
(monitoring.c line 304). -/
def joinDelim : List String → String
  | [] => ""
  | r :: rs => r ++ ":delim1:" ++ joinDelim rs

/-- Observable outcome of the post-loop draining code of
monitoring_thread_func (monitoring.c lines 324-334). -/
structure DrainOutcome where
  sends : List String
  socket_closed : Bool
  thread_exited : Bool
deriving DecidableEq

/-- Embedding of the draining phase (monitoring.c lines 324-334): a final
forward of the aggregation buffer exactly when the counter is positive,
then close on the listening socket and pthread_exit. -/
def drain_phase (st : AggrState) : DrainOutcome :=
  ⟨if st.msg_counter > 0 then [st.aggr_msg_buffer] else [], true, true⟩

/-- What one turn of the LISTENING multi-wait decides (monitoring.c
lines 241-269): give up on a poll error, break out towards draining when
the shutdown pipe is readable (with a warning exactly when a client is
simultaneously pending on the socket), otherwise go on to accept. -/
inductive LoopStep where
  | poll_fail : LoopStep
  | break_to_drain : Bool → LoopStep
  | try_accept : LoopStep
deriving DecidableEq

/-- Whether the step accepts a connection. -/
def LoopStep.accepts : LoopStep → Bool
  | .try_accept => true
  | _ => false

/-- Whether the step leaves the LISTENING state for the draining code. -/
def LoopStep.drains : LoopStep → Bool
  | .try_accept => false
  | _ => true

/-- Whether the step logs the warning about leaving clients behind,
monitoring.c line 260. -/
def LoopStep.warns : LoopStep → Bool
  | .break_to_drain w => w
  | _ => false

/-- Embedding of the top of the relay loop (monitoring.c lines 241-269):
poll over the shutdown pipe and the listening socket; poll failure breaks
the loop; a readable shutdown pipe breaks the loop before any accept,
warning exactly when the listening socket is simultaneously readable;
otherwise the loop proceeds to accept one connection. -/
def listening_step (poll_rc : Int) (pipe_ready sock_ready : Bool) : LoopStep :=
  if poll_rc ≤ 0 then .poll_fail
  else if pipe_ready then .break_to_drain sock_ready
  else .try_accept

/-- Outcomes of the fallible OS calls made by create_ephemeral_endpoint, in
program order (monitoring.c lines 172-204). -/
structure EndpointSyscalls where
  socket_ok : Bool
  bind_ok : Bool
  listen_ok : Bool
  getsockname_ok : Bool
  gethostname_ok : Bool
deriving DecidableEq

/-- What create_ephemeral_endpoint leaves behind: its return value (the
listening descriptor on success, -1 on failure), whether a socket was ever
opened, and whether that socket was closed again before returning. -/
structure EndpointOutcome where
  ret : Int
  socket_opened : Bool
  socket_closed : Bool
deriving DecidableEq

/-- Embedding of create_ephemeral_endpoint (monitoring.c lines 170-214).
A socket() failure returns -1 with nothing opened; bind, listen and
getsockname failures jump to the error label that closes the socket and
returns -1; the gethostname failure branch (lines 201-204) returns -1
directly, without passing through the error label, so the opened listening
socket is not closed on that path; on success the descriptor is returned
open.  No path retries anything. -/
def create_ephemeral_endpoint (sys : EndpointSyscalls) (listenfd : Nat) :
    EndpointOutcome :=
  if !sys.socket_ok then ⟨-1, false, false⟩
  else if !sys.bind_ok then ⟨-1, true, true⟩
  else if !sys.listen_ok then ⟨-1, true, true⟩
  else if !sys.getsockname_ok then ⟨-1, true, true⟩
  else if !sys.gethostname_ok then ⟨-1, true, false⟩
  else ⟨(listenfd : Int), true, false⟩

/-- What start_monitoring_thread leaves behind: the ordered list of
environment values it published via setenv, its return value, and whether
the monitoring thread was actually created. -/
structure StartOutcome where
  published : List (String × String)
  ret : Int
  thread_started : Bool
deriving DecidableEq

/-- Embedding of start_monitoring_thread (monitoring.c lines 337-388).  The
endpoint argument is the result of create_ephemeral_endpoint (none on
failure, otherwise the hostname and port pair); pipe_ok and pthread_ok
model the outcomes of pipe(2) and pthread_create(3).  On endpoint failure
nothing is published and -1 is returned; otherwise the five KICKSTART_MON
variables are set (lines 349-356) before initialize_monitoring_context is
even called, so they stay published on every later failure path. -/
def start_monitoring_thread (interval : Int) (endpoint : Option (String × Nat))
    (env : String → Option String) (pid : Nat) (pipe_ok pthread_ok : Bool) :
    StartOutcome :=
  match endpoint with
  | none => ⟨[], -1, false⟩
  | some (host, port) =>
    let pub := [("KICKSTART_MON", "enabled"),
                ("KICKSTART_MON_INTERVAL", toString interval),
                ("KICKSTART_MON_PID", toString pid),
                ("KICKSTART_MON_HOST", host),
                ("KICKSTART_MON_PORT", toString port)]
    match initialize_monitoring_context env with
    | .error _ => ⟨pub, -1, false⟩
    | .ok _ =>
      if !pipe_ok then ⟨pub, -1, false⟩
      else if !pthread_ok then ⟨pub, 1, false⟩
      else ⟨pub, 0, true⟩

/-- Embedding of the sprintf at monitoring.c lines 143-144: the POST body
sent to the broker, with the workflow UUID and the aggregated message
buffer interpolated into the fixed JSON template. -/
def send_msg_payload (msg_buff : String) (ctx : MonitoringThreadContext) :
    String :=
  "\x7b\"properties\":\x7b\x7d,\"routing_key\":\"" ++ ctx.wf_uuid ++
    "\",\"payload\":\"" ++ msg_buff ++ "\",\"payload_encoding\":\"string\"\x7d"

/-- The broker envelope as the specification describes it: an empty
properties field, a routing key equal to the workflow UUID, the joined text
of the batch as the payload body, and a fixed payload-encoding marker. -/
structure BrokerEnvelope where
  properties : List (String × String)
  routing_key : String
  payload : String
  payload_encoding : String

/-- Rendering of the properties object; for the empty property set this is
the empty JSON object. -/
def props_json (ps : List (String × String)) : String :=
  "\x7b" ++
    String.join (ps.map (fun kv => "\"" ++ kv.1 ++ "\":\"" ++ kv.2 ++ "\"")) ++
    "\x7d"

/-- Rendering of a broker envelope as a JSON object, written from the
description of the wire format in the specification. -/
def envelope_json (e : BrokerEnvelope) : String :=
  "\x7b\"properties\":" ++ props_json e.properties ++
    ",\"routing_key\":\"" ++ e.routing_key ++
    "\",\"payload\":\"" ++ e.payload ++
    "\",\"payload_encoding\":\"" ++ e.payload_encoding ++ "\"\x7d"

/-- A concrete context whose optional fields are absent (NULL), as produced
by an environment without PEGASUS_XFORMATION and PEGASUS_TASK_ID. -/
def ctx_no_optionals : MonitoringThreadContext :=
  ⟨"https://mq.example.org/api", "user:pass", "label-1", "uuid-1", "dag-1",
   "condor-1", none, none⟩

/-- A concrete context with both optional fields present. -/
def ctx_example : MonitoringThreadContext :=
  ⟨"https://mq.example.org/api", "user:pass", "label-1", "uuid-1", "dag-1",
   "condor-1", some "xform-1", some "task-1"⟩

/-- An environment in which every variable is unset. -/
def env_none : String → Option String := fun _ => none

/-- An environment in which the required keys are set and exactly the two
optional keys are unset. -/
def env_required_only : String → Option String := fun k =>
  if k = "PEGASUS_XFORMATION" then none
  else if k = "PEGASUS_TASK_ID" then none
  else some "v"

/-- Helper: running the loop body over valid lines that do not yet fill the
batch accumulates the enriched records, each followed by the delimiter, and
forwards nothing. -/
theorem run_from_no_flush (N : Nat) (ctx : MonitoringThreadContext)
    (ls : List String) :
    ∀ (st : AggrState) (sends : List String),
      (∀ l ∈ ls, ts_check l = true) →
      st.msg_counter + ls.length < N →
      run_from N ctx st sends ls =
        (⟨st.msg_counter + ls.length,
          st.aggr_msg_buffer ++ joinDelim (ls.map (enriched_line ctx))⟩, sends) := by
  induction ls with
  | nil =>
    intro st sends _ _
    cases st
    simp [run_from, joinDelim, String.append_empty]
  | cons l ls ih =>
    intro st sends hv hlt
    have hl : ts_check l = true := hv l (by simp)
    have hne : ¬ (st.msg_counter + 1 = N) := by
      simp only [List.length_cons] at hlt; omega
    simp only [run_from, process_line, hl, if_true, hne, if_false]
    rw [ih ⟨st.msg_counter + 1,
          st.aggr_msg_buffer ++ enriched_line ctx l ++ ":delim1:"⟩
        (sends ++ []) (fun x hx => hv x (List.mem_cons_of_mem _ hx))
        (by show st.msg_counter + 1 + ls.length < N
            simp only [List.length_cons] at hlt; omega)]
    simp only [List.map_cons, joinDelim, List.append_nil, List.length_cons,
      Prod.mk.injEq, AggrState.mk.injEq, String.append_assoc, and_true, true_and]
    omega

/-- Helper: running the loop body over valid lines that exactly fill the
batch forwards the accumulated buffer once and resets counter and buffer. -/
theorem run_from_flush (N : Nat) (ctx : MonitoringThreadContext)
    (ls : List String) :
    ∀ (st : AggrState) (sends : List String),
      ls ≠ [] →
      (∀ l ∈ ls, ts_check l = true) →
      st.msg_counter + ls.length = N →
      run_from N ctx st sends ls =
        (⟨0, ""⟩,
         sends ++ [st.aggr_msg_buffer ++ joinDelim (ls.map (enriched_line ctx))]) := by
  induction ls with
  | nil => intro _ _ h _ _; exact absurd rfl h
  | cons l ls ih =>
    intro st sends _ hv hlen
    have hl : ts_check l = true := hv l (by simp)
    by_cases hls : ls = []
    · subst hls
      have hN : st.msg_counter + 1 = N := by
        simp only [List.length_cons, List.length_nil] at hlen; omega
      simp [run_from, process_line, hl, hN, joinDelim, String.append_empty,
        String.append_assoc]
    · have hpos : 0 < ls.length := List.length_pos.mpr hls
      have hne : ¬ (st.msg_counter + 1 = N) := by
        simp only [List.length_cons] at hlen; omega
      simp only [run_from, process_line, hl, if_true, hne, if_false]
      rw [ih ⟨st.msg_counter + 1,
            st.aggr_msg_buffer ++ enriched_line ctx l ++ ":delim1:"⟩
          (sends ++ []) hls (fun x hx => hv x (List.mem_cons_of_mem _ hx))
          (by show st.msg_counter + 1 + ls.length = N
              simp only [List.length_cons] at hlen; omega)]
      simp [joinDelim, String.append_assoc]

/-- Helper: the contribution of a nonempty record sequence to the buffer
ends with the delimiter token. -/
theorem joinDelim_trailing : ∀ (rs : List String), rs ≠ [] →
    ∃ p, joinDelim rs = p ++ ":delim1:" := by
  intro rs
  induction rs with
  | nil => intro h; exact absurd rfl h
  | cons r rs ih =>
    intro _
    by_cases h : rs = []
    · subst h
      exact ⟨r, by simp [joinDelim, String.append_empty]⟩
    · obtain ⟨p, hp⟩ := ih h
      exact ⟨r ++ ":delim1:" ++ p, by simp [joinDelim, hp, String.append_assoc]⟩

/-- Helper: when some required key is absent, initialize_monitoring_context
fails with the error text naming the first absent required key. -/
theorem init_error_of_missing (env : String → Option String)
    (hex : ∃ k ∈ required_env_keys, env k = none) :
    ∃ k ∈ required_env_keys, env k = none ∧
      initialize_monitoring_context env = .error (missing_key_error k) := by
  cases h1 : env "KICKSTART_MON_ENDPOINT_URL" with
  | none =>
    exact ⟨_, by simp [required_env_keys], h1,
      by simp [initialize_monitoring_context, h1]⟩
  | some u1 =>
  cases h2 : env "KICKSTART_MON_ENDPOINT_CREDENTIALS" with
  | none =>
    exact ⟨_, by simp [required_env_keys], h2,
      by simp [initialize_monitoring_context, h1, h2]⟩
  | some u2 =>
  cases h3 : env "PEGASUS_WF_UUID" with
  | none =>
    exact ⟨_, by simp [required_env_keys], h3,
      by simp [initialize_monitoring_context, h1, h2, h3]⟩
  | some u3 =>
  cases h4 : env "PEGASUS_WF_LABEL" with
  | none =>
    exact ⟨_, by simp [required_env_keys], h4,
      by simp [initialize_monitoring_context, h1, h2, h3, h4]⟩
  | some u4 =>
  cases h5 : env "PEGASUS_DAG_JOB_ID" with
  | none =>
    exact ⟨_, by simp [required_env_keys], h5,
      by simp [initialize_monitoring_context, h1, h2, h3, h4, h5]⟩
  | some u5 =>
  cases h6 : env "CONDOR_JOBID" with
  | none =>
    exact ⟨_, by simp [required_env_keys], h6,
      by simp [initialize_monitoring_context, h1, h2, h3, h4, h5, h6]⟩
  | some u6 =>
    exfalso
    obtain ⟨k, hk, hnone⟩ := hex
    simp only [required_env_keys, List.mem_cons, List.mem_singleton,
      List.not_mem_nil, or_false] at hk
    rcases hk with rfl | rfl | rfl | rfl | rfl | rfl <;> simp_all

/-- Helper: when every required key is present, initialize_monitoring_context
succeeds and the two optional fields are exactly the (possibly absent)
optional environment values. -/
theorem init_ok_of_required (env : String → Option String)
    (hall : ∀ k ∈ required_env_keys, (env k).isSome) :
    ∃ ctx, initialize_monitoring_context env = .ok ctx ∧
      ctx.xformation = env "PEGASUS_XFORMATION" ∧
      ctx.task_id = env "PEGASUS_TASK_ID" := by
  obtain ⟨u1, hu1⟩ := Option.isSome_iff_exists.mp
    (hall "KICKSTART_MON_ENDPOINT_URL" (by simp [required_env_keys]))
  obtain ⟨u2, hu2⟩ := Option.isSome_iff_exists.mp
    (hall "KICKSTART_MON_ENDPOINT_CREDENTIALS" (by simp [required_env_keys]))
  obtain ⟨u3, hu3⟩ := Option.isSome_iff_exists.mp
    (hall "PEGASUS_WF_UUID" (by simp [required_env_keys]))
  obtain ⟨u4, hu4⟩ := Option.isSome_iff_exists.mp
    (hall "PEGASUS_WF_LABEL" (by simp [required_env_keys]))
  obtain ⟨u5, hu5⟩ := Option.isSome_iff_exists.mp
    (hall "PEGASUS_DAG_JOB_ID" (by simp [required_env_keys]))
  obtain ⟨u6, hu6⟩ := Option.isSome_iff_exists.mp
    (hall "CONDOR_JOBID" (by simp [required_env_keys]))
  refine ⟨⟨u1, u2, u4, u3, u5, u6, env "PEGASUS_XFORMATION",
    env "PEGASUS_TASK_ID"⟩, ?_, rfl, rfl⟩
  simp [initialize_monitoring_context, hu1, hu2, hu3, hu4, hu5, hu6]

/-- Claim C1, failing part.  The claim states that an absent optional field
(xformation, task_id) is rendered as an empty string in the enriched
record, never as a null or "(null)" text.  The code passes the NULL
pointers straight to the "%s" conversions of the enrichment snprintf
(monitoring.c lines 300-301), which glibc renders as "(null)": with both
optional fields absent, the enriched record carries the literal tokens
xformation=(null) and task_id=(null).  The original line is still preserved
verbatim as a prefix and exactly six key=value tokens are appended in the
fixed order, as this evaluation also shows. -/
theorem c1_absent_optionals_render_null :
    enriched_line ctx_no_optionals "ts=100" =
      "ts=100 wf_uuid=uuid-1 wf_label=label-1 dag_job_id=dag-1 condor_job_id=condor-1 xformation=(null) task_id=(null)" :=
  rfl

/-- Claim C2.  For any aggregation factor N of at least one and any
sequence of exactly N valid (ts=) lines, the relay performs exactly one
forward call, whose batch is exactly those N enriched records in order,
each followed by the delimiter token ":delim1:", and the counter and
buffer are reset to zero and empty afterwards. -/
theorem c2_full_batch_single_forward (N : Nat) (ctx : MonitoringThreadContext)
    (ls : List String) (hN : 0 < N) (hlen : ls.length = N)
    (hv : ∀ l ∈ ls, ts_check l = true) :
    run_lines N ctx ls =
      (⟨0, ""⟩, [joinDelim (ls.map (enriched_line ctx))]) := by
  have hne : ls ≠ [] := by
    intro h; subst h; simp at hlen; omega
  have h := run_from_flush N ctx ls ⟨0, ""⟩ [] hne hv (by simpa using hlen)
  simpa [run_lines, String.empty_append] using h

set_option maxRecDepth 40000 in
/-- Witness for claim C2 at aggregation factor 3 with three concrete
records, evaluated to the literal forwarded batch. -/
theorem c2_full_batch_single_forward_witness :
    run_lines 3 ctx_example ["ts=a", "ts=b", "ts=c"] =
      (⟨0, ""⟩,
       ["ts=a wf_uuid=uuid-1 wf_label=label-1 dag_job_id=dag-1 condor_job_id=condor-1 xformation=xform-1 task_id=task-1:delim1:ts=b wf_uuid=uuid-1 wf_label=label-1 dag_job_id=dag-1 condor_job_id=condor-1 xformation=xform-1 task_id=task-1:delim1:ts=c wf_uuid=uuid-1 wf_label=label-1 dag_job_id=dag-1 condor_job_id=condor-1 xformation=xform-1 task_id=task-1:delim1:"]) := by
  rw [c2_full_batch_single_forward 3 ctx_example ["ts=a", "ts=b", "ts=c"]
    (by decide) (by decide) (by decide)]
  rfl

/-- Claim C3.  After the loop has consumed fewer valid records than the
aggregation factor, nothing has been forwarded yet; the draining phase then
makes exactly one final forward call carrying exactly the buffered records
when at least one is buffered, and no forward call when none is buffered,
and in both cases closes the listening socket and terminates the relay
task. -/
theorem c3_drain_sends_buffered (N : Nat) (ctx : MonitoringThreadContext)
    (ls : List String) (hv : ∀ l ∈ ls, ts_check l = true)
    (hlen : ls.length < N) :
    (run_lines N ctx ls).2 = [] ∧
    drain_phase (run_lines N ctx ls).1 =
      ⟨if ls.isEmpty then [] else [joinDelim (ls.map (enriched_line ctx))],
       true, true⟩ := by
  have h := run_from_no_flush N ctx ls ⟨0, ""⟩ [] hv (by simpa using hlen)
  rw [run_lines, h]
  constructor
  · rfl
  · cases ls with
    | nil => simp [drain_phase, joinDelim]
    | cons a as => simp [drain_phase, String.empty_append]

/-- Witness for claim C3: two records buffered under aggregation factor 3
are forwarded by the drain in one final call, and the socket is closed. -/
theorem c3_drain_sends_buffered_witness :
    (run_lines 3 ctx_example ["ts=a", "ts=b"]).2 = [] ∧
    drain_phase (run_lines 3 ctx_example ["ts=a", "ts=b"]).1 =
      ⟨if (["ts=a", "ts=b"] : List String).isEmpty then []
        else [joinDelim (["ts=a", "ts=b"].map (enriched_line ctx_example))],
       true, true⟩ :=
  c3_drain_sends_buffered 3 ctx_example ["ts=a", "ts=b"] (by decide) (by decide)

/-- Claim C4.  Whenever the poll succeeded and the shutdown pipe is
readable, the LISTENING step breaks towards draining without accepting a
connection, and the warning about abandoning a pending client is logged
exactly when the listening socket is simultaneously readable. -/
theorem c4_shutdown_signal_priority (poll_rc : Int) (sock_ready : Bool)
    (hrc : 0 < poll_rc) :
    listening_step poll_rc true sock_ready = .break_to_drain sock_ready ∧
    (listening_step poll_rc true sock_ready).accepts = false ∧
    (listening_step poll_rc true sock_ready).drains = true ∧
    (listening_step poll_rc true sock_ready).warns = sock_ready := by
  have h : ¬ (poll_rc ≤ 0) := by omega
  simp [listening_step, h, LoopStep.accepts, LoopStep.drains, LoopStep.warns]

/-- Witness for claim C4: shutdown pipe and socket simultaneously readable. -/
theorem c4_shutdown_signal_priority_witness :
    listening_step 1 true true = .break_to_drain true ∧
    (listening_step 1 true true).accepts = false ∧
    (listening_step 1 true true).drains = true ∧
    (listening_step 1 true true).warns = true :=
  c4_shutdown_signal_priority 1 true (by decide)

/-- Claim C5, failing part.  The claim states that every failure path of
create_ephemeral_endpoint returns an error and releases any
partially-opened listening socket before returning.  Evaluating the
embedding on each single-failure outcome shows that the bind, listen and
getsockname failures do close the opened socket, and the socket failure
opens nothing, but the gethostname failure (monitoring.c lines 201-204)
returns -1 with the fully-opened listening socket left unclosed. -/
theorem c5_gethostname_failure_leaks_socket :
    create_ephemeral_endpoint ⟨false, true, true, true, true⟩ 7 = ⟨-1, false, false⟩ ∧
    create_ephemeral_endpoint ⟨true, false, true, true, true⟩ 7 = ⟨-1, true, true⟩ ∧
    create_ephemeral_endpoint ⟨true, true, false, true, true⟩ 7 = ⟨-1, true, true⟩ ∧
    create_ephemeral_endpoint ⟨true, true, true, false, true⟩ 7 = ⟨-1, true, true⟩ ∧
    create_ephemeral_endpoint ⟨true, true, true, true, false⟩ 7 = ⟨-1, true, false⟩ :=
  ⟨rfl, rfl, rfl, rfl, rfl⟩

/-- Claim C6, counterexample.  The claim states that the five endpoint
values are published only after a successful start.  With a working
endpoint but an environment missing the required identity values,
start_monitoring_thread fails (returns -1, no thread started) and yet all
five values are already published. -/
theorem c6_publishes_despite_config_failure :
    (start_monitoring_thread 10 (some ("host-1", 4000)) env_none 42 true true).ret = -1 ∧
    (start_monitoring_thread 10 (some ("host-1", 4000)) env_none 42 true true).thread_started = false ∧
    (start_monitoring_thread 10 (some ("host-1", 4000)) env_none 42 true true).published =
      [("KICKSTART_MON", "enabled"), ("KICKSTART_MON_INTERVAL", "10"),
       ("KICKSTART_MON_PID", "42"), ("KICKSTART_MON_HOST", "host-1"),
       ("KICKSTART_MON_PORT", "4000")] :=
  ⟨rfl, rfl, rfl⟩

/-- Claim C6, amended.  The publication of the enabled flag, interval,
process id, hostname and port happens immediately after a successful
endpoint allocation and before config collection: when endpoint allocation
fails nothing is published, and once it succeeds the five values are
published regardless of whether the rest of start succeeds. -/
theorem c6_publication_after_endpoint_allocation (interval : Int)
    (env : String → Option String) (pid : Nat) (pipe_ok pthread_ok : Bool) :
    (start_monitoring_thread interval none env pid pipe_ok pthread_ok).published = [] ∧
    ∀ host port,
      (start_monitoring_thread interval (some (host, port)) env pid pipe_ok
          pthread_ok).published =
        [("KICKSTART_MON", "enabled"),
         ("KICKSTART_MON_INTERVAL", toString interval),
         ("KICKSTART_MON_PID", toString pid),
         ("KICKSTART_MON_HOST", host),
         ("KICKSTART_MON_PORT", toString port)] := by
  refine ⟨rfl, ?_⟩
  intro host port
  cases h : initialize_monitoring_context env with
  | error e => simp [start_monitoring_thread, h]
  | ok c => cases pipe_ok <;> cases pthread_ok <;> simp [start_monitoring_thread, h]

/-- Claim C7.  A received line that does not begin with "ts=" is discarded:
the aggregation state is unchanged (so the line is neither enriched nor
buffered) and nothing is forwarded. -/
theorem c7_non_ts_line_discarded (N : Nat) (ctx : MonitoringThreadContext)
    (st : AggrState) (line : String) (h : ts_check line = false) :
    process_line N ctx st line = (st, []) := by
  simp [process_line, h]

/-- Witness for claim C7: a line carrying ts= other than at the start is
still discarded. -/
theorem c7_non_ts_line_discarded_witness :
    process_line MSG_AGGR_FACTOR ctx_example ⟨0, ""⟩ "pid=7 ts=2" =
      (⟨0, ""⟩, []) :=
  c7_non_ts_line_discarded MSG_AGGR_FACTOR ctx_example ⟨0, ""⟩ "pid=7 ts=2"
    (by decide)

/-- Claim C8.  If any required configuration key is absent, config
collection fails with the error text naming an absent required key, and
start returns -1 without creating the relay thread; if every required key
is present, collection succeeds even when the two optional keys are
absent, and the optional fields are exactly the (possibly absent) optional
environment values. -/
theorem c8_required_and_optional_keys (env : String → Option String) :
    ((∃ k ∈ required_env_keys, env k = none) →
      ∃ k ∈ required_env_keys, env k = none ∧
        initialize_monitoring_context env = .error (missing_key_error k) ∧
        ∀ (interval : Int) (host : String) (port pid : Nat) (p q : Bool),
          (start_monitoring_thread interval (some (host, port)) env pid p q).ret = -1 ∧
          (start_monitoring_thread interval (some (host, port)) env pid p
              q).thread_started = false) ∧
    ((∀ k ∈ required_env_keys, (env k).isSome) →
      ∃ ctx, initialize_monitoring_context env = .ok ctx ∧
        ctx.xformation = env "PEGASUS_XFORMATION" ∧
        ctx.task_id = env "PEGASUS_TASK_ID") := by
  constructor
  · intro hex
    obtain ⟨k, hk, hnone, herr⟩ := init_error_of_missing env hex
    refine ⟨k, hk, hnone, herr, ?_⟩
    intro interval host port pid p q
    simp [start_monitoring_thread, herr]
  · exact init_ok_of_required env

/-- Witness for claim C8: the all-unset environment fails with an error
naming a missing required key and start refuses to create the thread; the
environment with only the required keys set succeeds with both optional
fields absent. -/
theorem c8_required_and_optional_keys_witness :
    (∃ k ∈ required_env_keys, env_none k = none ∧
      initialize_monitoring_context env_none = .error (missing_key_error k) ∧
      ∀ (interval : Int) (host : String) (port pid : Nat) (p q : Bool),
        (start_monitoring_thread interval (some (host, port)) env_none pid p q).ret = -1 ∧
        (start_monitoring_thread interval (some (host, port)) env_none pid p
            q).thread_started = false) ∧
    (∃ ctx, initialize_monitoring_context env_required_only = .ok ctx ∧
      ctx.xformation = env_required_only "PEGASUS_XFORMATION" ∧
      ctx.task_id = env_required_only "PEGASUS_TASK_ID") :=
  ⟨(c8_required_and_optional_keys env_none).1
      ⟨"KICKSTART_MON_ENDPOINT_URL", by decide, rfl⟩,
   (c8_required_and_optional_keys env_required_only).2 (by decide)⟩

/-- Claim C9.  For every context and aggregated message buffer, the POST
body built by send_msg_to_mq is exactly the JSON rendering of the broker
envelope whose properties object is empty, whose routing key is the
workflow UUID, whose payload is the joined batch text and whose
payload-encoding marker is the string "string". -/
theorem c9_broker_envelope (ctx : MonitoringThreadContext) (msg_buff : String) :
    send_msg_payload msg_buff ctx =
      envelope_json ⟨[], ctx.wf_uuid, msg_buff, "string"⟩ := by
  have hP : props_json [] = "\x7b\x7d" := rfl
  show "\x7b\"properties\":\x7b\x7d,\"routing_key\":\"" ++ ctx.wf_uuid ++
      "\",\"payload\":\"" ++ msg_buff ++ "\",\"payload_encoding\":\"string\"\x7d" =
    "\x7b\"properties\":" ++ props_json [] ++ ",\"routing_key\":\"" ++ ctx.wf_uuid ++
      "\",\"payload\":\"" ++ msg_buff ++ "\",\"payload_encoding\":\"" ++ "string" ++ "\"\x7d"
  rw [hP]
  rw [show ("\x7b\"properties\":" ++ "\x7b\x7d" ++ ",\"routing_key\":\"" : String) =
    "\x7b\"properties\":\x7b\x7d,\"routing_key\":\"" from rfl]
  rw [String.append_assoc _ "\",\"payload_encoding\":\"" "string",
    String.append_assoc _ ("\",\"payload_encoding\":\"" ++ "string") "\"\x7d"]
  rfl

/-- Claim C10.  Every batch forwarded on reaching the aggregation factor is
the enriched records each followed by the delimiter token ":delim1:", so in
particular the forwarded payload ends with a trailing delimiter rather than
the delimiter appearing only between adjacent records. -/
theorem c10_trailing_delimiter (N : Nat) (ctx : MonitoringThreadContext)
    (ls : List String) (hN : 0 < N) (hlen : ls.length = N)
    (hv : ∀ l ∈ ls, ts_check l = true) :
    ∃ p, (run_lines N ctx ls).2 = [p ++ ":delim1:"] ∧
      p ++ ":delim1:" = joinDelim (ls.map (enriched_line ctx)) := by
  have hlsne : ls ≠ [] := by
    intro h; subst h; simp at hlen; omega
  have hne : ls.map (enriched_line ctx) ≠ [] := by
    simpa using hlsne
  obtain ⟨p, hp⟩ := joinDelim_trailing _ hne
  have h := run_from_flush N ctx ls ⟨0, ""⟩ [] hlsne hv (by simpa using hlen)
  refine ⟨p, ?_, hp.symm⟩
  rw [run_lines, h]
  simp [String.empty_append, hp]

/-- Witness for claim C10 at the aggregation factor of the code (one), on
one concrete record. -/
theorem c10_trailing_delimiter_witness :
    ∃ p, (run_lines MSG_AGGR_FACTOR ctx_example ["ts=x"]).2 = [p ++ ":delim1:"] ∧
      p ++ ":delim1:" = joinDelim (["ts=x"].map (enriched_line ctx_example)) :=
  c10_trailing_delimiter MSG_AGGR_FACTOR ctx_example ["ts=x"]
    (by decide) (by decide) (by decide)
